import Mathlib

/-!
Shallow embedding of `Sirius_Espectros.py` (class `Espectros`).

Numeric values (Python/NumPy float64) are modelled as rationals `ℚ`;
the arithmetic the claims quantify over is exact in both worlds.
Tables (`numpy.ndarray`, one row per sample) are `List (List ℚ)`.
Fallible operations (a `KeyError` on a unit lookup, an `IndexError`,
an exception caught and turned into `None`) return `Option`/`Except`.

In NumPy's guarded `true_divide(a, b, where := b ne 0, out := 0)` a zero
divisor yields 0, which coincides with division on `ℚ`.
-/

namespace Espectros

/-- The class-level dictionary `energy_unit` (multiplier to eV);
`none` models a `KeyError`. -/
def energy_unit (u : String) : Option ℚ :=
  if u = "eV" then some 1
  else if u = "keV" then some 1000
  else if u = "MeV" then some 1000000
  else if u = "GeV" then some 1000000000
  else none

/-- The class-level dictionary `flux_unit` (multiplier to ph/s/eV);
`none` models a `KeyError`. -/
def flux_unit (u : String) : Option ℚ :=
  if u = "ph/s/eV" then some 1
  else if u = "ph/s/0.1%" then some 1000
  else none

/-- One row of `bandwidth_to_energy`'s vectorised update: both new columns
are computed from the original row (lines 100-101 run before the in-place
assignments of lines 102-103), then written to indices 0 and 1. -/
def bteRow (eu fu current : ℚ) (row : List ℚ) : List ℚ :=
  let energy := row.getD 0 0 * eu
  let flux := row.getD 1 0 * fu / row.getD 0 0 / current
  (row.set 0 energy).set 1 flux

/-- One row of `normalize_spectrum`'s vectorised update (lines 119-122). -/
def normRow (eu fu current : ℚ) (row : List ℚ) : List ℚ :=
  let energy := row.getD 0 0 * eu
  let flux := row.getD 1 0 * fu / current
  (row.set 0 energy).set 1 flux

/-- `Espectros.bandwidth_to_energy`: `energy = col0 * energy_unit[energy_u]`,
`flux = col1 * flux_unit[flux_u] / col0 / current`, written in place over
columns 0 and 1.  `none` models the `KeyError` on an unknown unit key. -/
def bandwidth_to_energy (data : List (List ℚ)) (energy_u flux_u : String)
    (current : ℚ) : Option (List (List ℚ)) :=
  match energy_unit energy_u, flux_unit flux_u with
  | some eu, some fu => some (data.map (bteRow eu fu current))
  | _, _ => none

/-- `Espectros.normalize_spectrum`: `energy = col0 * energy_unit[energy_u]`,
`flux = col1 * flux_unit[flux_u] / current`, written in place over columns
0 and 1.  `none` models the `KeyError` on an unknown unit key. -/
def normalize_spectrum (data : List (List ℚ)) (energy_u flux_u : String)
    (current : ℚ) : Option (List (List ℚ)) :=
  match energy_unit energy_u, flux_unit flux_u with
  | some eu, some fu => some (data.map (normRow eu fu current))
  | _, _ => none

/-- Heap-level model of `bandwidth_to_energy`'s effect: arrays live in a
store indexed by references (`Nat`); the method overwrites the argument
array's contents in the store and returns the argument reference itself
(`return data` on line 104 returns the mutated object, not a copy). -/
def bandwidth_to_energy_call (store : List (List (List ℚ))) (r : Nat)
    (energy_u flux_u : String) (current : ℚ) :
    Option (Nat × List (List (List ℚ))) :=
  match energy_unit energy_u, flux_unit flux_u with
  | some eu, some fu => some (r, store.set r ((store.getD r []).map (bteRow eu fu current)))
  | _, _ => none

/-- Heap-level model of `normalize_spectrum`'s effect, as for
`bandwidth_to_energy_call` (the `return data` on line 123 returns the
mutated argument object). -/
def normalize_spectrum_call (store : List (List (List ℚ))) (r : Nat)
    (energy_u flux_u : String) (current : ℚ) :
    Option (Nat × List (List (List ℚ))) :=
  match energy_unit energy_u, flux_unit flux_u with
  | some eu, some fu => some (r, store.set r ((store.getD r []).map (normRow eu fu current)))
  | _, _ => none

/-- Python's `str.split()` with no arguments, as used on line 39: split on
runs of whitespace, producing no empty tokens.  `acc` holds the current
token's characters in reverse. -/
def tokensAux : List Char → List Char → List String
  | [], acc => if acc.isEmpty then [] else [String.mk acc.reverse]
  | c :: t, acc =>
    if c.isWhitespace then
      if acc.isEmpty then tokensAux t []
      else String.mk acc.reverse :: tokensAux t []
    else tokensAux t (c :: acc)

/-- The whitespace-separated tokens of a line (`line.split()`). -/
def tokensOf (line : String) : List String :=
  tokensAux line.data []

/-- The numeric value of a digit string (most significant first). -/
def digitsToNat (ds : List Char) : Nat :=
  ds.foldl (fun a c => 10 * a + (c.toNat - 48)) 0

/-- Model of Python's `float(token)` on the decimal-literal fragment
(optional sign, digits with optional point and fraction, optional
exponent); `none` models the `ValueError` on anything else.  Whitespace
cannot occur (tokens come from `split()`); underscored literals and
`inf`/`nan` spellings are outside the fragment exercised here. -/
def pyFloat (s : String) : Option ℚ :=
  let cs := s.data
  let sc : ℚ × List Char :=
    match cs with
    | '+' :: t => (1, t)
    | '-' :: t => (-1, t)
    | t => (1, t)
  let ip := sc.2.takeWhile (fun c => c.isDigit)
  let cs2 := sc.2.dropWhile (fun c => c.isDigit)
  let dot : Bool × List Char :=
    match cs2 with
    | '.' :: t => (true, t)
    | t => (false, t)
  let fp := if dot.1 then dot.2.takeWhile (fun c => c.isDigit) else []
  let cs4 := if dot.1 then dot.2.dropWhile (fun c => c.isDigit) else dot.2
  if ip.isEmpty && fp.isEmpty then none
  else
    let mant : ℚ := (digitsToNat ip : ℚ) + (digitsToNat fp : ℚ) / (10 : ℚ) ^ fp.length
    match cs4 with
    | [] => some (sc.1 * mant)
    | e :: t =>
      if e = 'e' || e = 'E' then
        let es : ℤ × List Char :=
          match t with
          | '+' :: u => (1, u)
          | '-' :: u => (-1, u)
          | u => (1, u)
        let ed := es.2.takeWhile (fun c => c.isDigit)
        let t2 := es.2.dropWhile (fun c => c.isDigit)
        if ed.isEmpty || !t2.isEmpty then none
        else some (sc.1 * mant * (10 : ℚ) ^ (es.1 * (digitsToNat ed : ℤ)))
      else none

/-- The `spectrum_lines` accumulation of lines 35-41, parameterised by the
token parser `pf` (instantiated with `pyFloat`): a line containing `'#'`
is skipped (`continue`); otherwise all tokens are converted and collected,
and a `ValueError` on any token drops the whole line (`continue`). -/
def spectrumLines (pf : String → Option ℚ) (lines : List String) :
    List (List ℚ) :=
  lines.filterMap (fun line =>
    if line.data.contains '#' then none
    else (tokensOf line).mapM pf)

/-- `Espectros.get_spectrum_data`.  The file read of lines 29-33 is
modelled by an `Except`: `.error` is an exception raised by `open`/read
(missing file, permission error, a directory path), which the code
catches and turns into `None`.  An empty `spectrum_lines` also yields
`None` (lines 43-47); otherwise the rows are returned (`np.array` keeps
the row lists as given). -/
def get_spectrum_data (pf : String → Option ℚ)
    (file : Except String (List String)) : Option (List (List ℚ)) :=
  match file with
  | .error _ => none
  | .ok lines =>
    let sl := spectrumLines pf lines
    if sl.isEmpty then none else some sl

/-- `scipy.integrate._basic_simpson` on sample points `x`, values `y`:
the composite-Simpson contribution of the point triples starting at
`start, start+2, ...` while the first index stays below `stop`
(the strides `slice(start, stop, 2)`, `slice(start+1, stop+1, 2)`,
`slice(start+2, stop+2, 2)`).  The guarded `true_divide`s of scipy
(result 0 where the divisor is 0) coincide with `ℚ` division. -/
def basicSimpson (y x : List ℚ) (start stop : Nat) : ℚ :=
  if start < stop then
    let h0 := x.getD (start + 1) 0 - x.getD start 0
    let h1 := x.getD (start + 2) 0 - x.getD (start + 1) 0
    let hsum := h0 + h1
    let hprod := h0 * h1
    let h0divh1 := h0 / h1
    hsum / 6 * (y.getD start 0 * (2 - 1 / h0divh1)
        + y.getD (start + 1) 0 * (hsum * (hsum / hprod))
        + y.getD (start + 2) 0 * (2 - h0divh1))
      + basicSimpson y x (start + 2) stop
  else 0
termination_by stop - start

/-- `scipy.integrate.simps(y=y, x=x)` with the long-standing default
`even='avg'`: for an odd number of samples a single composite-Simpson
pass; for an even number, the average of (Simpson on all but the last
interval + trapezoid on the last) and (trapezoid on the first interval +
Simpson on all but the first).  The `Nat` truncation of `N-3`/`N-2`
reproduces scipy's behaviour at `N = 1` and `N = 2`, where the negative
Python stops make the strided slices empty (broadcast to zero terms). -/
def simps (y x : List ℚ) : ℚ :=
  let N := y.length
  if N % 2 = 0 then
    let last_dx := x.getD (N - 1) 0 - x.getD (N - 2) 0
    let first_dx := x.getD 1 0 - x.getD 0 0
    let val := 1 / 2 * last_dx * (y.getD (N - 1) 0 + y.getD (N - 2) 0)
      + 1 / 2 * first_dx * (y.getD 1 0 + y.getD 0 0)
    let result := basicSimpson y x 0 (N - 3) + basicSimpson y x 1 (N - 2)
    result / 2 + val / 2
  else basicSimpson y x 0 (N - 2)

/-- `Espectros.integrate_spectrum` (lines 191-195): scale both columns by
the normalize formula, then `simps`.  `none` models the `KeyError` on an
unknown unit key and the `IndexError` scipy raises on zero samples
(`y[slice(-1)]` on an empty axis); one sample returns `simps`' 0.0. -/
def integrate_spectrum (data : List (List ℚ)) (energy_u flux_u : String)
    (current : ℚ) : Option ℚ :=
  match energy_unit energy_u, flux_unit flux_u with
  | some eu, some fu =>
    if data.length = 0 then none
    else
      let energy_data := data.map (fun r => r.getD 0 0 * eu)
      let flux_ev_data := data.map (fun r => r.getD 1 0 * fu / current)
      some (simps flux_ev_data energy_data)
  | _, _ => none

/-- `Espectros.integrate_discrete` (lines 197-200):
`sum(data[:,1] * flux_unit[flux_u] / current)`.  `none` models the
`KeyError` on an unknown flux-unit key. -/
def integrate_discrete (data : List (List ℚ)) (flux_u : String)
    (current : ℚ) : Option ℚ :=
  match flux_unit flux_u with
  | some fu => some ((data.map (fun r => r.getD 1 0 * fu / current)).sum)
  | none => none

/-- A file-system node: a file (whose read yields lines, or raises — see
`get_spectrum_data`), or a directory listing named children. -/
inductive Entry where
  | file (content : Except String (List String))
  | dir (entries : List (String × Entry))
deriving Repr

mutual

/-- Node count of an `Entry`, the termination measure of the walker. -/
def entrySize : Entry → Nat
  | .file _ => 1
  | .dir es => 1 + entriesSize es

/-- Node count of a child list (each child counts at least 1). -/
def entriesSize : List (String × Entry) → Nat
  | [] => 0
  | (_, e) :: rest => 1 + entrySize e + entriesSize rest

end

/-- Stable insertion by name, for `sorted(os.listdir(folder))`. -/
def insertByName (p : String × Entry) :
    List (String × Entry) → List (String × Entry)
  | [] => [p]
  | q :: t => if p.1 ≤ q.1 then p :: q :: t else q :: insertByName p t

/-- `sorted(os.listdir(folder))`: children in lexicographic name order. -/
def sortByName : List (String × Entry) → List (String × Entry)
  | [] => []
  | p :: t => insertByName p (sortByName t)

/-- Python-dict assignment `d[k] = v`: replace in place if the key exists
(keeping its insertion position), else append. -/
def dictSet (d : List (String × List (List ℚ))) (k : String)
    (v : List (List ℚ)) : List (String × List (List ℚ)) :=
  if d.any (fun p => p.1 = k) then
    d.map (fun p => if p.1 = k then (k, v) else p)
  else d ++ [(k, v)]

/-- Python-dict `d.update(d2)`: assign every pair of `d2` in order. -/
def dictUpdate (d d2 : List (String × List (List ℚ))) :
    List (String × List (List ℚ)) :=
  d2.foldl (fun acc p => dictSet acc p.1 p.2) d

theorem entriesSize_insertByName (p : String × Entry)
    (l : List (String × Entry)) :
    entriesSize (insertByName p l) = 1 + entrySize p.2 + entriesSize l := by
  induction l with
  | nil => simp [insertByName, entriesSize]
  | cons q t ih =>
    by_cases h : p.1 ≤ q.1
    · simp [insertByName, h, entriesSize]
    · simp [insertByName, h, entriesSize, ih]
      ring

theorem entriesSize_sortByName (l : List (String × Entry)) :
    entriesSize (sortByName l) = entriesSize l := by
  induction l with
  | nil => rfl
  | cons p t ih => simp [sortByName, entriesSize_insertByName, ih, entriesSize]

mutual

/-- `Espectros.plot_folder_spectrum` on a resolved path (lines 140-164),
with the plotting side effect of lines 161-162 elided (it does not affect
the returned value).  A non-directory argument fails the `isdir` check and
the bare `return` of line 141 yields Python `None`, modelled `.ok none`;
a propagated exception (the `KeyError` of a unit lookup) is `.error`. -/
def walkEntry (spectrum_type energy_u flux_u : String) (current : ℚ) :
    Entry → Except String (Option (List (String × List (List ℚ))))
  | .file _ => .ok none
  | .dir es =>
    match walkChildren spectrum_type energy_u flux_u current (sortByName es) [] with
    | .error e => .error e
    | .ok espec => .ok (some espec)
termination_by e => entrySize e
decreasing_by
  simp only [entrySize, entriesSize_sortByName]
  omega

/-- The `for file in sorted(os.listdir(folder))` loop (lines 144-159),
over the remaining children with the accumulated `espec`.  A directory
child is walked recursively and merged (`espec.update(...)`, line 149);
the subsequent `get_spectrum_data` on the directory path raises inside
`open`, is caught and returns `None`, so the loop continues.  A file
child is parsed; `None` data is skipped (line 152); otherwise it is
converted according to `spectrum_type` (lines 154-157) and stored under
its bare name (line 159). -/
def walkChildren (spectrum_type energy_u flux_u : String) (current : ℚ) :
    List (String × Entry) → List (String × List (List ℚ)) →
    Except String (List (String × List (List ℚ)))
  | [], espec => .ok espec
  | (name, child) :: rest, espec =>
    match child with
    | .dir es =>
      match walkEntry spectrum_type energy_u flux_u current (.dir es) with
      | .error e => .error e
      | .ok sub =>
        walkChildren spectrum_type energy_u flux_u current rest
          (dictUpdate espec (sub.getD []))
    | .file content =>
      match get_spectrum_data pyFloat content with
      | none => walkChildren spectrum_type energy_u flux_u current rest espec
      | some data =>
        let converted :=
          if spectrum_type = "bandwidth" then
            bandwidth_to_energy data energy_u flux_u current
          else
            normalize_spectrum data energy_u flux_u current
        match converted with
        | none => .error "KeyError"
        | some d =>
          walkChildren spectrum_type energy_u flux_u current rest
            (dictSet espec name d)
termination_by es _ => entriesSize es
decreasing_by
  all_goals simp only [entrySize, entriesSize]
  all_goals omega

end

/-- `Espectros.plot_folder_spectrum` on a path: `none` is a path that does
not exist (so `os.path.isdir` is false, like a file path). -/
def plot_folder_spectrum (path : Option Entry)
    (spectrum_type energy_u flux_u : String) (current : ℚ) :
    Except String (Option (List (String × List (List ℚ)))) :=
  match path with
  | none => .ok none
  | some e => walkEntry spectrum_type energy_u flux_u current e

/-- Python `max` over a list of lengths: `none` models the `ValueError`
it raises on an empty sequence. -/
def listMax : List Nat → Option Nat
  | [] => none
  | x :: t => some (t.foldl Nat.max x)

/-- Python's `{s:>w}` padding: prepend spaces up to width `w`; content
wider than `w` is emitted unchanged. -/
def rightAlign (w : Nat) (s : String) : String :=
  String.mk (List.replicate (w - s.length) ' ') ++ s

/-- Decimal digit characters of `n`, most significant first; the fuel
(400, ample for every value in play) only bounds the recursion. -/
def natDigitsAux : Nat → Nat → List Char → List Char
  | 0, _, acc => acc
  | fuel + 1, n, acc =>
    if n < 10 then Nat.digitChar n :: acc
    else natDigitsAux fuel (n / 10) (Nat.digitChar (n % 10) :: acc)

/-- Decimal digit characters of `n`, most significant first. -/
def natDigits (n : Nat) : List Char :=
  natDigitsAux 400 n []

/-- The number of decimal digits of `n` (1 for 0). -/
def decDigits (n : Nat) : Nat :=
  (natDigits n).length

/-- `10 ^ k` by structural recursion. -/
def pow10 : Nat → Nat
  | 0 => 1
  | k + 1 => 10 * pow10 k

/-- Round `p / q` (for `q ≠ 0`) to the nearest natural, ties to even —
the rounding of Python's `%.<N>E` formatting (applied here to the exact
value, which on the inputs used coincides with rounding the float64's
decimal expansion). -/
def roundHalfEvenDiv (p q : Nat) : Nat :=
  let n := p / q
  let r := p % q
  if 2 * r < q then n
  else if q < 2 * r then n + 1
  else if n % 2 = 0 then n else n + 1

/-- The decimal exponent of the positive fraction `p / q`: the `e` with
`10 ^ e ≤ p / q < 10 ^ (e + 1)`. -/
def decExpDiv (p q : Nat) : ℤ :=
  if q ≤ p then (decDigits (p / q) : ℤ) - 1
  else -(decDigits ((q + p - 1) / p - 1) : ℤ)

/-- Scientific decomposition of the positive fraction `p / q` at `d`
fractional digits: a mantissa integer of `d + 1` digits (rounded half to
even, with the carry on overflow to `10 ^ (d + 1)`) and the exponent. -/
def sciParts (p q d : Nat) : Nat × ℤ :=
  let e := decExpDiv p q
  let t : ℤ := (d : ℤ) - e
  let m0 := if 0 ≤ t then roundHalfEvenDiv (p * pow10 t.toNat) q
    else roundHalfEvenDiv p (q * pow10 (-t).toNat)
  if pow10 (d + 1) ≤ m0 then (m0 / 10, e + 1) else (m0, e)

/-- Python's `{v:.{d}E}` scientific-notation rendering of a value:
sign, one leading digit, `d` fractional digits (no point when `d = 0`),
and a signed, two-digit-minimum exponent. -/
def fmtE (v : ℚ) (d : Nat) : String :=
  if v = 0 then
    (if d = 0 then "0" else "0." ++ String.mk (List.replicate d '0')) ++ "E+00"
  else
    let sgn := if v < 0 then "-" else ""
    let me := sciParts v.num.natAbs v.den d
    let mant :=
      match natDigits me.1 with
      | [] => "0"
      | c :: rest => if d = 0 then String.mk [c] else String.mk (c :: '.' :: rest)
    let esgn := if me.2 < 0 then "-" else "+"
    let ea := me.2.natAbs
    let estr := if ea < 10 then String.mk ('0' :: natDigits ea)
      else String.mk (natDigits ea)
    sgn ++ mant ++ "E" ++ esgn ++ estr

/-- `Espectros.write_data_file` (lines 166-189), returning the lines
written to the file.  `pyStr` is the semantics of Python's default
`str()`/f-string rendering of the numeric values as passed (float64
repr, or int repr for an integer `current`) — an external-library
behaviour supplied pointwise.  Column widths (lines 183-184) come from
the `str()` lengths of the values, while the data lines (line 186) are
rendered with `{:.{decimal_places}E}`.  `none` models the `KeyError` on
an unknown unit key and the `ValueError` of `max` on an empty table. -/
def write_data_file (pyStr : ℚ → String) (data : List (List ℚ))
    (energy_u flux_u : String) (current : ℚ) (decimal_places : Nat) :
    Option (List String) :=
  match energy_unit energy_u, flux_unit flux_u with
  | some eu, some fu =>
    let energy_label := "#Energy (" ++ energy_u ++ ")"
    let flux_label := "Flux (" ++ flux_u ++ "/" ++ pyStr current ++ "mA)"
    let energy_data := data.map (fun r => r.getD 0 0 / eu)
    let flux_ev_data := data.map (fun r => r.getD 1 0 * fu * current)
    match listMax (energy_data.map (fun v => (pyStr v).length)),
        listMax (flux_ev_data.map (fun v => (pyStr v).length)) with
    | some me, some mf =>
      let max1 := Nat.max me energy_label.length
      let max2 := Nat.max mf flux_label.length
      let header := rightAlign max1 energy_label ++ " "
        ++ rightAlign max2 flux_label ++ "\n"
      let data_write := List.zipWith (fun en fl =>
        rightAlign max1 (fmtE en decimal_places) ++ " "
          ++ rightAlign max2 (fmtE fl decimal_places) ++ "\n")
        energy_data flux_ev_data
      some (header :: data_write)
    | _, _ => none
  | _, _ => none

/-- Modelled from the spec's words, for comparison with
`write_data_file`: "Column widths are computed as the max of (header
label length, widest formatted value length) per column", the formatted
value being the scientific-notation rendering with the given decimal
precision.  Everything else follows `write_data_file`. -/
def write_data_file_specWidths (pyStr : ℚ → String) (data : List (List ℚ))
    (energy_u flux_u : String) (current : ℚ) (decimal_places : Nat) :
    Option (List String) :=
  match energy_unit energy_u, flux_unit flux_u with
  | some eu, some fu =>
    let energy_label := "#Energy (" ++ energy_u ++ ")"
    let flux_label := "Flux (" ++ flux_u ++ "/" ++ pyStr current ++ "mA)"
    let energy_data := data.map (fun r => r.getD 0 0 / eu)
    let flux_ev_data := data.map (fun r => r.getD 1 0 * fu * current)
    match listMax (energy_data.map (fun v => (fmtE v decimal_places).length)),
        listMax (flux_ev_data.map (fun v => (fmtE v decimal_places).length)) with
    | some me, some mf =>
      let max1 := Nat.max me energy_label.length
      let max2 := Nat.max mf flux_label.length
      let header := rightAlign max1 energy_label ++ " "
        ++ rightAlign max2 flux_label ++ "\n"
      let data_write := List.zipWith (fun en fl =>
        rightAlign max1 (fmtE en decimal_places) ++ " "
          ++ rightAlign max2 (fmtE fl decimal_places) ++ "\n")
        energy_data flux_ev_data
      some (header :: data_write)
    | _, _ => none
  | _, _ => none

/-- Python's `str()` on the particular numbers appearing in the
serializer examples below: `str(1234567890123456.0)`, `str(2.0)` (both
float64 values, exactly representable), and `str(1)` for the integral
`current` argument. -/
def demoStr (q : ℚ) : String :=
  if q = 1234567890123456 then "1234567890123456.0"
  else if q = 2 then "2.0"
  else if q = 1 then "1"
  else "0.0"

/-! Helper lemmas about the row transforms. -/

theorem bteRow_col0 (eu fu current : ℚ) (row : List ℚ) :
    (bteRow eu fu current row).getD 0 0 = row.getD 0 0 * eu := by
  match row with
  | [] => simp [bteRow]
  | [a] => simp [bteRow]
  | a :: b :: t => simp [bteRow]

theorem bteRow_col1 (eu fu current : ℚ) (row : List ℚ) :
    (bteRow eu fu current row).getD 1 0
      = row.getD 1 0 * fu / row.getD 0 0 / current := by
  match row with
  | [] => simp [bteRow]
  | [a] => simp [bteRow]
  | a :: b :: t => simp [bteRow]

theorem normRow_col0 (eu fu current : ℚ) (row : List ℚ) :
    (normRow eu fu current row).getD 0 0 = row.getD 0 0 * eu := by
  match row with
  | [] => simp [normRow]
  | [a] => simp [normRow]
  | a :: b :: t => simp [normRow]

theorem normRow_col1 (eu fu current : ℚ) (row : List ℚ) :
    (normRow eu fu current row).getD 1 0 = row.getD 1 0 * fu / current := by
  match row with
  | [] => simp [normRow]
  | [a] => simp [normRow]
  | a :: b :: t => simp [normRow]

theorem bteRow_length (eu fu current : ℚ) (row : List ℚ) :
    (bteRow eu fu current row).length = row.length := by
  simp [bteRow]

theorem normRow_length (eu fu current : ℚ) (row : List ℚ) :
    (normRow eu fu current row).length = row.length := by
  simp [normRow]

theorem bteRow_col_ge_two (eu fu current : ℚ) (row : List ℚ) (i : Nat)
    (hi : 2 ≤ i) :
    (bteRow eu fu current row).getD i 0 = row.getD i 0 := by
  have h0 : (0 : Nat) ≠ i := by omega
  have h1 : (1 : Nat) ≠ i := by omega
  simp [bteRow, List.getD_eq_getElem?_getD, List.getElem?_set_ne h0,
    List.getElem?_set_ne h1]

theorem normRow_col_ge_two (eu fu current : ℚ) (row : List ℚ) (i : Nat)
    (hi : 2 ≤ i) :
    (normRow eu fu current row).getD i 0 = row.getD i 0 := by
  have h0 : (0 : Nat) ≠ i := by omega
  have h1 : (1 : Nat) ≠ i := by omega
  simp [normRow, List.getD_eq_getElem?_getD, List.getElem?_set_ne h0,
    List.getElem?_set_ne h1]

theorem getD_map_of_lt (f : List ℚ → List ℚ) (l : List (List ℚ)) (i : Nat)
    (hi : i < l.length) :
    (l.map f).getD i [] = f (l.getD i []) := by
  rw [List.getD_eq_getElem?_getD, List.getD_eq_getElem?_getD,
    List.getElem?_map, List.getElem?_eq_getElem hi]
  simp

/-- C1: for tables with nonzero column 0, recognised unit keys and a
nonzero current, `bandwidth_to_energy` scales column 0 by the energy-unit
multiplier and maps column 1 to `col1 * flux_mult / col0 / current`, and
`normalize_spectrum` scales column 0 the same way and maps column 1 to
`col1 * flux_mult / current`. -/
theorem C1_unit_conversion_formulas (data : List (List ℚ))
    (energy_u flux_u : String) (eu fu current : ℚ)
    (heu : energy_unit energy_u = some eu)
    (hfu : flux_unit flux_u = some fu)
    (hcur : current ≠ 0)
    (hcol0 : ∀ row ∈ data, row.getD 0 0 ≠ 0) :
    (∃ out, bandwidth_to_energy data energy_u flux_u current = some out ∧
      out.length = data.length ∧
      ∀ i, i < data.length →
        (out.getD i []).getD 0 0 = (data.getD i []).getD 0 0 * eu ∧
        (out.getD i []).getD 1 0
          = (data.getD i []).getD 1 0 * fu / (data.getD i []).getD 0 0
            / current) ∧
    (∃ out, normalize_spectrum data energy_u flux_u current = some out ∧
      out.length = data.length ∧
      ∀ i, i < data.length →
        (out.getD i []).getD 0 0 = (data.getD i []).getD 0 0 * eu ∧
        (out.getD i []).getD 1 0
          = (data.getD i []).getD 1 0 * fu / current) := by
  refine ⟨⟨data.map (bteRow eu fu current), ?_, by simp, ?_⟩,
      ⟨data.map (normRow eu fu current), ?_, by simp, ?_⟩⟩
  · simp [bandwidth_to_energy, heu, hfu]
  · intro i hi
    rw [getD_map_of_lt _ _ _ hi]
    exact ⟨bteRow_col0 eu fu current _, bteRow_col1 eu fu current _⟩
  · simp [normalize_spectrum, heu, hfu]
  · intro i hi
    rw [getD_map_of_lt _ _ _ hi]
    exact ⟨normRow_col0 eu fu current _, normRow_col1 eu fu current _⟩

/-- C1, instantiated at the table `[[2, 4]]` with keV, ph/s/0.1% and a
current of 2. -/
theorem C1_unit_conversion_formulas_witness :
    (∃ out, bandwidth_to_energy [[2, 4]] "keV" "ph/s/0.1%" 2 = some out ∧
      out.length = [[(2 : ℚ), 4]].length ∧
      ∀ i, i < [[(2 : ℚ), 4]].length →
        (out.getD i []).getD 0 0 = ([[(2 : ℚ), 4]].getD i []).getD 0 0 * 1000 ∧
        (out.getD i []).getD 1 0
          = ([[(2 : ℚ), 4]].getD i []).getD 1 0 * 1000
            / ([[(2 : ℚ), 4]].getD i []).getD 0 0 / 2) ∧
    (∃ out, normalize_spectrum [[2, 4]] "keV" "ph/s/0.1%" 2 = some out ∧
      out.length = [[(2 : ℚ), 4]].length ∧
      ∀ i, i < [[(2 : ℚ), 4]].length →
        (out.getD i []).getD 0 0 = ([[(2 : ℚ), 4]].getD i []).getD 0 0 * 1000 ∧
        (out.getD i []).getD 1 0
          = ([[(2 : ℚ), 4]].getD i []).getD 1 0 * 1000 / 2) :=
  C1_unit_conversion_formulas [[2, 4]] "keV" "ph/s/0.1%" 1000 1000 2
    (by simp [energy_unit]) (by simp [flux_unit]) (by norm_num)
    (by intro row hr; simp at hr; simp [hr])

/-- C5 fails for `bandwidth_to_energy`: on `[[2, 3]]` with unit
multipliers 1 and current 1 it divides the flux by column 0, returning
`[[2, 3/2]]`, not the table unchanged. -/
theorem C5_counterexample :
    bandwidth_to_energy [[2, 3]] "eV" "ph/s/eV" 1 = some [[2, 3 / 2]] ∧
    some [[(2 : ℚ), 3 / 2]] ≠ some [[2, 3]] := by
  constructor
  · simp [bandwidth_to_energy, energy_unit, flux_unit, bteRow]
  · simp
    norm_num

/-- C5 amended: with energy unit eV, flux unit ph/s/eV and current 1,
`normalize_spectrum` is the identity on every table, while
`bandwidth_to_energy` (which additionally divides flux by column 0) is
the identity on tables whose column 0 entries equal 1. -/
theorem C5_identity_amended :
    (∀ data : List (List ℚ),
      normalize_spectrum data "eV" "ph/s/eV" 1 = some data) ∧
    (∀ data : List (List ℚ), (∀ row ∈ data, row.getD 0 0 = 1) →
      bandwidth_to_energy data "eV" "ph/s/eV" 1 = some data) := by
  constructor
  · intro data
    have hrow : ∀ row : List ℚ, normRow 1 1 1 row = row := by
      intro row
      match row with
      | [] => simp [normRow]
      | [a] => simp [normRow]
      | a :: b :: t => simp [normRow]
    simp [normalize_spectrum, energy_unit, flux_unit]
    exact List.map_congr_left (fun row _ => hrow row) |>.trans (List.map_id data)
  · intro data h
    have hrow : ∀ row ∈ data, bteRow 1 1 1 row = row := by
      intro row hr
      have h0 := h row hr
      match row with
      | [] =>
        simp at h0
      | [a] => simp [bteRow]
      | a :: b :: t =>
        simp at h0
        simp [bteRow, h0]
    simp [bandwidth_to_energy, energy_unit, flux_unit]
    exact List.map_congr_left hrow |>.trans (List.map_id data)

/-- C5 amended, instantiated at `[[1, 5]]`. -/
theorem C5_identity_amended_witness :
    normalize_spectrum [[1, 5]] "eV" "ph/s/eV" 1 = some [[1, 5]] ∧
    bandwidth_to_energy [[1, 5]] "eV" "ph/s/eV" 1 = some [[1, 5]] :=
  ⟨C5_identity_amended.1 [[1, 5]],
    C5_identity_amended.2 [[1, 5]] (by intro row hr; simp at hr; simp [hr])⟩

theorem sum_map_mul_div (l : List ℚ) (a c : ℚ) :
    (l.map (fun q => q * a / c)).sum = l.sum * a / c := by
  induction l with
  | nil => simp
  | cons x t ih =>
    simp [ih]
    ring

/-- C6: `integrate_discrete` returns the sum over all rows of
`col1 * flux_mult / current` (equivalently, the sum of column 1 scaled
by `flux_mult / current`); on `[(1,2),(2,3),(3,5)]` with ph/s/eV and
current 1 it returns 10. -/
theorem C6_integrate_discrete (data : List (List ℚ)) (flux_u : String)
    (fu current : ℚ) (hfu : flux_unit flux_u = some fu) :
    integrate_discrete data flux_u current
      = some ((data.map (fun r => r.getD 1 0 * fu / current)).sum) ∧
    integrate_discrete data flux_u current
      = some ((data.map (fun r => r.getD 1 0)).sum * fu / current) ∧
    integrate_discrete [[1, 2], [2, 3], [3, 5]] "ph/s/eV" 1 = some 10 := by
  refine ⟨by simp [integrate_discrete, hfu], ?_, ?_⟩
  · simp only [integrate_discrete, hfu]
    rw [show (fun r : List ℚ => r.getD 1 0 * fu / current)
      = (fun q => q * fu / current) ∘ (fun r : List ℚ => r.getD 1 0) from rfl]
    rw [← List.map_map, sum_map_mul_div]
  · simp [integrate_discrete, flux_unit]
    norm_num

/-- C6, instantiated at the spec's discrete-integration example. -/
theorem C6_integrate_discrete_witness :
    integrate_discrete [[1, 2], [2, 3], [3, 5]] "ph/s/eV" 1 = some 10 :=
  (C6_integrate_discrete [] "ph/s/eV" 1 1 (by simp [flux_unit])).2.2

/-- C9: with recognised unit keys, each conversion overwrites the
argument array's contents in the store (columns 0 and 1 of every row)
and returns the argument reference itself; arrays at other references
are untouched, row lengths are preserved, and every column of index at
least 2 keeps its value. -/
theorem C9_in_place_mutation (store : List (List (List ℚ))) (r : Nat)
    (energy_u flux_u : String) (eu fu current : ℚ)
    (heu : energy_unit energy_u = some eu)
    (hfu : flux_unit flux_u = some fu) :
    (bandwidth_to_energy_call store r energy_u flux_u current
      = some (r, store.set r ((store.getD r []).map (bteRow eu fu current)))) ∧
    (normalize_spectrum_call store r energy_u flux_u current
      = some (r, store.set r ((store.getD r []).map (normRow eu fu current)))) ∧
    (∀ tbl : List (List ℚ), ∀ j, j ≠ r →
      (store.set r tbl).getD j [] = store.getD j []) ∧
    (∀ row : List ℚ,
      (bteRow eu fu current row).length = row.length ∧
      (normRow eu fu current row).length = row.length ∧
      ∀ i, 2 ≤ i →
        (bteRow eu fu current row).getD i 0 = row.getD i 0 ∧
        (normRow eu fu current row).getD i 0 = row.getD i 0) := by
  refine ⟨by simp [bandwidth_to_energy_call, heu, hfu],
    by simp [normalize_spectrum_call, heu, hfu], ?_, ?_⟩
  · intro tbl j hj
    have hr : r ≠ j := fun h => hj h.symm
    simp [List.getD_eq_getElem?_getD, List.getElem?_set_ne hr]
  · intro row
    exact ⟨bteRow_length eu fu current row, normRow_length eu fu current row,
      fun i hi => ⟨bteRow_col_ge_two eu fu current row i hi,
        normRow_col_ge_two eu fu current row i hi⟩⟩

/-- C9, instantiated at a one-array store holding `[[2, 4, 7]]`: the call
returns the same reference 0, the store's array is updated in place and
the third column survives. -/
theorem C9_in_place_mutation_witness :
    bandwidth_to_energy_call [[[2, 4, 7]]] 0 "eV" "ph/s/eV" 1
      = some (0, [[[2, 2, 7]]]) := by
  rw [(C9_in_place_mutation [[[2, 4, 7]]] 0 "eV" "ph/s/eV" 1 1 1
    (by simp [energy_unit]) (by simp [flux_unit])).1]
  simp [bteRow]
  norm_num

/-- C2: the parser skips every line containing `'#'`, converts the
whitespace-separated tokens of the remaining lines, silently drops a
line whose tokens do not all parse, returns `None` when no valid row is
produced, and on the file `["# header", "1.0 2.0", "abc def"]` returns
exactly the row `[1.0, 2.0]`. -/
theorem C2_parser_policy :
    (∀ (pf : String → Option ℚ) (line : String) (rest : List String),
      '#' ∈ line.data →
      spectrumLines pf (line :: rest) = spectrumLines pf rest) ∧
    (∀ (pf : String → Option ℚ) (line : String) (rest : List String)
      (row : List ℚ),
      '#' ∉ line.data →
      (tokensOf line).mapM pf = some row →
      spectrumLines pf (line :: rest) = row :: spectrumLines pf rest) ∧
    (∀ (pf : String → Option ℚ) (line : String) (rest : List String),
      '#' ∉ line.data →
      (tokensOf line).mapM pf = none →
      spectrumLines pf (line :: rest) = spectrumLines pf rest) ∧
    (∀ (pf : String → Option ℚ) (lines : List String),
      spectrumLines pf lines = [] →
      get_spectrum_data pf (.ok lines) = none) ∧
    get_spectrum_data pyFloat (.ok ["# header", "1.0 2.0", "abc def"])
      = some [[1, 2]] := by
  refine ⟨?_, ?_, ?_, ?_, ?_⟩
  · intro pf line rest h
    simp [spectrumLines, List.filterMap_cons, h]
  · intro pf line rest row h hp
    simp [List.mapM] at hp
    simp [spectrumLines, List.filterMap_cons, h, hp]
  · intro pf line rest h hp
    simp [List.mapM] at hp
    simp [spectrumLines, List.filterMap_cons, h, hp]
  · intro pf lines h
    simp [get_spectrum_data, h]
  · simp [get_spectrum_data, spectrumLines, tokensOf, tokensAux, pyFloat,
      digitsToNat, List.mapM, List.mapM.loop]

/-- C2, instantiated: the header line `"#c"` is skipped. -/
theorem C2_parser_policy_witness :
    spectrumLines pyFloat ["#c", "1.0 2.0"] = spectrumLines pyFloat ["1.0 2.0"] :=
  C2_parser_policy.1 pyFloat "#c" ["1.0 2.0"] (by decide)

/-- C7 fails: a hard I/O failure is caught by the `try/except` of lines
29-33 and returns `None` — the very same result as a readable file with
zero valid rows — instead of surfacing an I/O error. -/
theorem C7_counterexample :
    get_spectrum_data pyFloat (.error "FileNotFoundError") = none ∧
    get_spectrum_data pyFloat (.ok ["abc"]) = none := by
  constructor
  · rfl
  · simp [get_spectrum_data, spectrumLines, tokensOf, tokensAux, pyFloat,
      digitsToNat, List.mapM, List.mapM.loop]

/-- C7 amended: both failure kinds produce `None`: every raised read
error is swallowed, and a readable file with zero valid rows also yields
`None`; the two are not distinguished. -/
theorem C7_failure_modes_amended (pf : String → Option ℚ) :
    (∀ e : String, get_spectrum_data pf (.error e) = none) ∧
    (∀ lines : List String, spectrumLines pf lines = [] →
      get_spectrum_data pf (.ok lines) = none) :=
  ⟨fun _ => rfl, fun _ h => by simp [get_spectrum_data, h]⟩

/-- C7 amended, instantiated at a missing file and an empty file. -/
theorem C7_failure_modes_amended_witness :
    get_spectrum_data pyFloat (.error "PermissionError") = none ∧
    get_spectrum_data pyFloat (.ok []) = none :=
  ⟨(C7_failure_modes_amended pyFloat).1 "PermissionError",
    (C7_failure_modes_amended pyFloat).2 [] rfl⟩

theorem spectrumLines_replicate_blank (pf : String → Option ℚ) (n : Nat) :
    spectrumLines pf (List.replicate n "") = List.replicate n [] := by
  induction n with
  | zero => rfl
  | succ k ih =>
    rw [List.replicate_succ, List.replicate_succ, ← ih]
    rfl

/-- C10: a line with no `'#'` and no tokens (blank or whitespace-only)
contributes an empty row; a file of `n > 0` blank lines parses to `n`
empty rows (not `None`); and a blank line mixed with a data line yields
rows of unequal column counts (0 and 2). -/
theorem C10_blank_line_rows :
    (∀ (pf : String → Option ℚ) (line : String) (rest : List String),
      '#' ∉ line.data →
      tokensOf line = [] →
      spectrumLines pf (line :: rest) = [] :: spectrumLines pf rest) ∧
    (∀ n, 0 < n →
      get_spectrum_data pyFloat (.ok (List.replicate n ""))
        = some (List.replicate n ([] : List ℚ))) ∧
    get_spectrum_data pyFloat (.ok ["", "1.0 2.0"]) = some [[], [1, 2]] ∧
    ((get_spectrum_data pyFloat (.ok ["", "1.0 2.0"])).getD []).map
      List.length = [0, 2] := by
  refine ⟨?_, ?_, ?_, ?_⟩
  · intro pf line rest h ht
    simp [spectrumLines, List.filterMap_cons, h, ht, List.mapM, List.mapM.loop]
  · intro n hn
    have hne : (List.replicate n ([] : List ℚ)).isEmpty = false := by
      match n, hn with
      | k + 1, _ => rfl
    simp [get_spectrum_data, spectrumLines_replicate_blank, hne]
  · simp [get_spectrum_data, spectrumLines, tokensOf, tokensAux, pyFloat,
      digitsToNat, List.mapM, List.mapM.loop]
  · simp [get_spectrum_data, spectrumLines, tokensOf, tokensAux, pyFloat,
      digitsToNat, List.mapM, List.mapM.loop]

/-- C10, instantiated at a blank line followed by a data line. -/
theorem C10_blank_line_rows_witness :
    spectrumLines pyFloat ["", "1.0 2.0"] = [] :: spectrumLines pyFloat ["1.0 2.0"] :=
  C10_blank_line_rows.1 pyFloat "" ["1.0 2.0"] (by decide) rfl

/-- C3 fails: on a path that is not a directory the walker executes the
bare `return` of line 141 and yields Python `None` — not an empty
dictionary. -/
theorem C3_counterexample :
    plot_folder_spectrum none "bandwidth" "eV" "ph/s/0.1%" 1 = .ok none ∧
    (Except.ok none :
        Except String (Option (List (String × List (List ℚ)))))
      ≠ .ok (some []) := by
  exact ⟨rfl, by simp⟩

/-- C3 amended: on every path that is not a directory (a missing path or
a plain file), the walker returns `None` — no collection at all, and in
particular not an empty one — without raising. -/
theorem C3_not_a_directory_amended (spectrum_type energy_u flux_u : String)
    (current : ℚ) :
    plot_folder_spectrum none spectrum_type energy_u flux_u current
      = .ok none ∧
    ∀ content, plot_folder_spectrum (some (.file content)) spectrum_type
      energy_u flux_u current = .ok none :=
  ⟨rfl, fun content => by simp [plot_folder_spectrum, walkEntry]⟩

/-- C4 fails: a one-row table does not produce an `InsufficientData`
error (no such check exists in the code) — `simps` on a single sample
yields 0.0, so `integrate_spectrum` returns 0. -/
theorem C4_counterexample :
    integrate_spectrum [[1, 5]] "eV" "ph/s/eV" 1 = some 0 ∧
    some (0 : ℚ) ≠ none := by
  constructor
  · simp [integrate_spectrum, energy_unit, flux_unit, simps, basicSimpson]
  · simp

/-- C4 amended: `integrate_spectrum` performs no row-count check.  With
recognised unit keys it applies the normalize scaling to both columns
and returns scipy's composite Simpson (`simps`, `even='avg'`) for any
non-empty table — including a single row, where the quadrature is 0;
only an empty table errors (an `IndexError` inside scipy), and on the
quadratic samples `(0,0), (1,1), (2,4)` the quadrature is exactly 8/3. -/
theorem C4_integrate_amended (data : List (List ℚ))
    (energy_u flux_u : String) (eu fu current : ℚ)
    (heu : energy_unit energy_u = some eu)
    (hfu : flux_unit flux_u = some fu)
    (h2 : 2 ≤ data.length) :
    integrate_spectrum data energy_u flux_u current
      = some (simps (data.map fun r => r.getD 1 0 * fu / current)
          (data.map fun r => r.getD 0 0 * eu)) ∧
    integrate_spectrum [] energy_u flux_u current = none ∧
    integrate_spectrum [[0, 0], [1, 1], [2, 4]] "eV" "ph/s/eV" 1
      = some (8 / 3) := by
  refine ⟨?_, by simp [integrate_spectrum, heu, hfu], ?_⟩
  · have hlen : data.length ≠ 0 := by omega
    simp [integrate_spectrum, heu, hfu, hlen]
  · simp [integrate_spectrum, energy_unit, flux_unit, simps, basicSimpson]
    norm_num

/-- C4 amended, instantiated at the spec's two-point ramp, whose
even-sample Simpson (trapezoid averaging) value is 10. -/
theorem C4_integrate_amended_witness :
    integrate_spectrum [[0, 0], [2, 10]] "eV" "ph/s/eV" 1 = some 10 := by
  rw [(C4_integrate_amended [[0, 0], [2, 10]] "eV" "ph/s/eV" 1 1 1
    (by simp [energy_unit]) (by simp [flux_unit]) (by simp)).1]
  simp [simps, basicSimpson]

theorem rightAlign_length (w : Nat) (s : String) :
    (rightAlign w s).length = Nat.max w s.length := by
  simp [rightAlign]
  have h : Nat.max w s.length = if w ≤ s.length then s.length else w := rfl
  rw [h]
  split
  · omega
  · omega

/-- C8 fails: the column widths of lines 183-184 are computed from the
lengths of the plain `str()` renderings of the values, not from the
lengths of the scientific-notation renderings used for the data lines.
On a table whose energy value has a long plain rendering
(`str(1234567890123456.0)`, 18 characters, against `1.235E+15`, 9) the
code pads the energy column to 18 while the claimed rule pads it to the
header's 12, and the written files differ. -/
theorem C8_counterexample :
    write_data_file demoStr [[1234567890123456, 2]] "eV" "ph/s/eV" 1 3
      = some ["      #Energy (eV) Flux (ph/s/eV/1mA)\n",
              "         1.235E+15          2.000E+00\n"] ∧
    write_data_file_specWidths demoStr [[1234567890123456, 2]] "eV" "ph/s/eV" 1 3
      = some ["#Energy (eV) Flux (ph/s/eV/1mA)\n",
              "   1.235E+15          2.000E+00\n"] ∧
    write_data_file demoStr [[1234567890123456, 2]] "eV" "ph/s/eV" 1 3
      ≠ write_data_file_specWidths demoStr [[1234567890123456, 2]] "eV"
          "ph/s/eV" 1 3 := by
  have h1 : write_data_file demoStr [[1234567890123456, 2]] "eV" "ph/s/eV" 1 3
      = some ["      #Energy (eV) Flux (ph/s/eV/1mA)\n",
              "         1.235E+15          2.000E+00\n"] := by
    simp [write_data_file, energy_unit, flux_unit, demoStr, listMax,
      rightAlign, fmtE]
    decide
  have h2 : write_data_file_specWidths demoStr [[1234567890123456, 2]] "eV"
      "ph/s/eV" 1 3
      = some ["#Energy (eV) Flux (ph/s/eV/1mA)\n",
              "   1.235E+15          2.000E+00\n"] := by
    simp [write_data_file_specWidths, energy_unit, flux_unit, demoStr,
      listMax, rightAlign, fmtE]
    decide
  refine ⟨h1, h2, ?_⟩
  rw [h1, h2]
  decide

/-- C8 amended: each column's width is the max of the header label length
and the widest plain `str()` rendering of that column's values (not the
widest scientific rendering); header and data fields are right-aligned to
those widths, the data values in `{:.{d}E}` scientific notation, where a
right-aligned field has length `max width content-length` (content wider
than the column overflows it). -/
theorem C8_column_widths_amended (pyStr : ℚ → String)
    (data : List (List ℚ)) (energy_u flux_u : String)
    (eu fu current : ℚ) (d me mf : Nat)
    (heu : energy_unit energy_u = some eu)
    (hfu : flux_unit flux_u = some fu)
    (hme : listMax ((data.map fun r => r.getD 0 0 / eu).map
      fun v => (pyStr v).length) = some me)
    (hmf : listMax ((data.map fun r => r.getD 1 0 * fu * current).map
      fun v => (pyStr v).length) = some mf) :
    write_data_file pyStr data energy_u flux_u current d
      = some
        ((rightAlign (Nat.max me ("#Energy (" ++ energy_u ++ ")").length)
            ("#Energy (" ++ energy_u ++ ")") ++ " "
          ++ rightAlign (Nat.max mf
              ("Flux (" ++ flux_u ++ "/" ++ pyStr current ++ "mA)").length)
            ("Flux (" ++ flux_u ++ "/" ++ pyStr current ++ "mA)") ++ "\n")
        :: List.zipWith (fun en fl =>
            rightAlign (Nat.max me ("#Energy (" ++ energy_u ++ ")").length)
              (fmtE en d) ++ " "
            ++ rightAlign (Nat.max mf
                ("Flux (" ++ flux_u ++ "/" ++ pyStr current ++ "mA)").length)
              (fmtE fl d) ++ "\n")
          (data.map fun r => r.getD 0 0 / eu)
          (data.map fun r => r.getD 1 0 * fu * current)) ∧
    (∀ w s, (rightAlign w s).length = Nat.max w s.length) := by
  refine ⟨?_, rightAlign_length⟩
  simp only [write_data_file, heu, hfu]
  rw [hme, hmf]

/-- C8 amended, instantiated at the table `[[2, 2]]`: both `str()`
lengths are 3, so both widths come from the header labels. -/
theorem C8_column_widths_amended_witness :
    write_data_file demoStr [[2, 2]] "eV" "ph/s/eV" 1 3
      = some ["#Energy (eV) Flux (ph/s/eV/1mA)\n",
              "   2.000E+00          2.000E+00\n"] := by
  rw [(C8_column_widths_amended demoStr [[2, 2]] "eV" "ph/s/eV" 1 1 1 3 3 3
    (by simp [energy_unit]) (by simp [flux_unit])
    (by simp [demoStr, listMax]; decide) (by simp [demoStr, listMax]; decide)).1]
  simp [rightAlign, fmtE, demoStr]
  decide

end Espectros
